import Mathlib

/-!
Verification of the ZKS-Tunnel core against its specification.

The development shallowly embeds the Rust sources:
* `zks-tunnel-proto/src/message.rs` — the six-variant binary frame codec
  (`TunnelMessage.encode` / `TunnelMessage.decode`), with bytes modelled as
  `Nat` values below 256 and byte strings as `List Nat`;
* `zks-tunnel-worker/src/tunnel_session.rs` — the relay-side session:
  SSRF host filter and the per-frame dispatch (`handleMessage`,
  `handleConnect`, `handleData`, `handleClose`), with the stream map
  modelled by its key list and the socket halves left abstract;
* `zks-tunnel-client/src/tunnel.rs` — the client reader-task dispatch and
  the stream-id allocator of `open_stream`;
* `zks-tunnel-client/src/packet_pool.rs` — the bounded packet-buffer pool,
  with a `Vec<u8>` modelled by its length and capacity.
-/

namespace ZKS

/-- Errors of `zks-tunnel-proto/src/error.rs` (`ProtoError`).  The `io`
variant abstracts the wrapped `std::io::Error` to a unit. -/
inductive ProtoError where
  | invalidCommand (b : Nat)
  | emptyMessage
  | insufficientData
  | invalidUtf8
  | frameTooLarge (n m : Nat)
  | io
deriving DecidableEq, Repr

/-- The errors the spec enumerates as possible results of `decode`
(`InvalidCommand`, `EmptyMessage`, `InsufficientData`, `InvalidUtf8`,
`FrameTooLarge`). -/
def ProtoError.isDecodeError : ProtoError → Bool
  | .invalidCommand _ => true
  | .emptyMessage => true
  | .insufficientData => true
  | .invalidUtf8 => true
  | .frameTooLarge _ _ => true
  | .io => false

/-- `MAX_FRAME_SIZE` from `message.rs`: maximum size of a single frame (1MB). -/
def MAX_FRAME_SIZE : Nat := 1024 * 1024

/-- `TunnelMessage` from `message.rs`.  `String` fields become byte lists
(`List Nat`), `Bytes` payloads likewise; `u32`/`u16` fields become `Nat`. -/
inductive TunnelMessage where
  | connect (streamId : Nat) (host : List Nat) (port : Nat)
  | data (streamId : Nat) (payload : List Nat)
  | close (streamId : Nat)
  | errorReply (streamId : Nat) (code : Nat) (message : List Nat)
  | ping
  | pong
deriving DecidableEq, Repr

/-- Big-endian two-byte encoding, as `put_u16` emits a `u16`; composing with
the Rust `as u16` cast is the identity on these two bytes, so the cast needs
no separate model. -/
def u16be (n : Nat) : List Nat := [n / 256 % 256, n % 256]

/-- Big-endian four-byte encoding, as `put_u32` emits a `u32`. -/
def u32be (n : Nat) : List Nat :=
  [n / 16777216 % 256, n / 65536 % 256, n / 256 % 256, n % 256]

/-- Value read by `get_u16` from two big-endian bytes. -/
def beVal2 (a b : Nat) : Nat := a * 256 + b

/-- Value read by `get_u32` from four big-endian bytes. -/
def beVal4 (a b c d : Nat) : Nat := ((a * 256 + b) * 256 + c) * 256 + d

/-- One pass of the UTF-8 acceptance automaton run by `String::from_utf8`
(RFC 3629, as in Rust's `core::str` validation).  `pending` counts the
continuation bytes still expected for the current scalar; the next byte must
lie in `[lo, hi]` (this narrows after a leading `0xE0`/`0xED`/`0xF0`/`0xF4`),
and later continuation bytes must lie in `[0x80, 0xBF]`. -/
def utf8Scan : List Nat → Nat → Nat → Nat → Bool
  | [], pending, _, _ => pending = 0
  | b :: rest, pending, lo, hi =>
    if 0 < pending then
      if lo ≤ b ∧ b ≤ hi then utf8Scan rest (pending - 1) 128 191 else false
    else
      if b < 128 then utf8Scan rest 0 128 191
      else if 194 ≤ b ∧ b ≤ 223 then utf8Scan rest 1 128 191
      else if b = 224 then utf8Scan rest 2 160 191
      else if b = 237 then utf8Scan rest 2 128 159
      else if 224 ≤ b ∧ b ≤ 239 then utf8Scan rest 2 128 191
      else if b = 240 then utf8Scan rest 3 144 191
      else if b = 244 then utf8Scan rest 3 128 143
      else if 240 ≤ b ∧ b ≤ 244 then utf8Scan rest 3 128 191
      else false

/-- The UTF-8 validation run by `String::from_utf8`, on byte lists. -/
def utf8Valid (l : List Nat) : Bool := utf8Scan l 0 128 191

/-- `TunnelMessage::encode` from `message.rs`.

Formats:
`CONNECT: [cmd:1][stream_id:4][port:2][host_len:2][host:N]`,
`DATA: [cmd:1][stream_id:4][payload_len:4][payload:N]`,
`CLOSE: [cmd:1][stream_id:4]`,
`ERROR: [cmd:1][stream_id:4][code:2][msg_len:2][msg:N]`,
`PING/PONG: [cmd:1]`.
The `host.len() as u16` / `message.len() as u16` / `payload.len() as u32`
casts are absorbed by `u16be` / `u32be`, which only keep the low bytes. -/
def TunnelMessage.encode : TunnelMessage → List Nat
  | .connect streamId host port =>
      1 :: (u32be streamId ++ u16be port ++ u16be host.length ++ host)
  | .data streamId payload =>
      2 :: (u32be streamId ++ u32be payload.length ++ payload)
  | .close streamId => 3 :: u32be streamId
  | .errorReply streamId code message =>
      4 :: (u32be streamId ++ u16be code ++ u16be message.length ++ message)
  | .ping => [5]
  | .pong => [6]

/-- `TunnelMessage::decode` from `message.rs`.  The cursor is the tail of the
byte list; the `cursor.remaining() < k` guards become pattern-match arity,
and each length-prefixed read keeps its explicit remaining-length guard. -/
def TunnelMessage.decode (data : List Nat) : Except ProtoError TunnelMessage :=
  match data with
  | [] => .error .emptyMessage
  | cmd :: rest =>
    if cmd = 1 then
      match rest with
      | a :: b :: c :: d :: p1 :: p2 :: l1 :: l2 :: rem =>
        let hostLen := beVal2 l1 l2
        if rem.length < hostLen then .error .insufficientData
        else if utf8Valid (rem.take hostLen) then
          .ok (.connect (beVal4 a b c d) (rem.take hostLen) (beVal2 p1 p2))
        else .error .invalidUtf8
      | _ => .error .insufficientData
    else if cmd = 2 then
      match rest with
      | a :: b :: c :: d :: e1 :: e2 :: e3 :: e4 :: rem =>
        let payloadLen := beVal4 e1 e2 e3 e4
        if rem.length < payloadLen then .error .insufficientData
        else .ok (.data (beVal4 a b c d) (rem.take payloadLen))
      | _ => .error .insufficientData
    else if cmd = 3 then
      match rest with
      | a :: b :: c :: d :: _ => .ok (.close (beVal4 a b c d))
      | _ => .error .insufficientData
    else if cmd = 4 then
      match rest with
      | a :: b :: c :: d :: c1 :: c2 :: l1 :: l2 :: rem =>
        let msgLen := beVal2 l1 l2
        if rem.length < msgLen then .error .insufficientData
        else if utf8Valid (rem.take msgLen) then
          .ok (.errorReply (beVal4 a b c d) (beVal2 c1 c2) (rem.take msgLen))
        else .error .invalidUtf8
      | _ => .error .insufficientData
    else if cmd = 5 then .ok .ping
    else if cmd = 6 then .ok .pong
    else .error (.invalidCommand cmd)

/-- Well-formedness of a message as the Rust types guarantee it: `u32` and
`u16` fields are in range, string fields are valid UTF-8, and — the bound the
`as u16` / `as u32` length casts silently assume — string and payload lengths
fit the corresponding length-prefix field. -/
def TunnelMessage.wfm : TunnelMessage → Bool
  | .connect streamId host port =>
      streamId < 4294967296 && port < 65536 && host.length < 65536 &&
      utf8Valid host
  | .data streamId payload =>
      streamId < 4294967296 && payload.length < 4294967296
  | .close streamId => streamId < 4294967296
  | .errorReply streamId code message =>
      streamId < 4294967296 && code < 65536 && message.length < 65536 &&
      utf8Valid message
  | .ping => true
  | .pong => true

/-- Byte list of an ASCII string literal. -/
def strBytes (s : String) : List Nat := s.data.map Char.toNat

/-- Byte-wise ASCII lowercasing; on the ASCII hosts the SSRF filter compares
against, this agrees with Rust's `str::to_lowercase`. -/
def asciiLower (c : Nat) : Nat := if 65 ≤ c ∧ c ≤ 90 then c + 32 else c

/-- The `blocked_prefixes` array of `TunnelSession::is_valid_host`. -/
def blockedPrefixList : List (List Nat) :=
  [strBytes "127.", strBytes "10.", strBytes "192.168.", strBytes "172.16.",
   strBytes "172.17.", strBytes "172.18.", strBytes "172.19.",
   strBytes "172.20.", strBytes "172.21.", strBytes "172.22.",
   strBytes "172.23.", strBytes "172.24.", strBytes "172.25.",
   strBytes "172.26.", strBytes "172.27.", strBytes "172.28.",
   strBytes "172.29.", strBytes "172.30.", strBytes "172.31.",
   strBytes "169.254.", strBytes "0.", strBytes "localhost",
   strBytes "::1", strBytes "fc", strBytes "fd", strBytes "fe80"]

/-- `TunnelSession::is_valid_host` from `tunnel_session.rs`: block hosts whose
lowercased form starts with a blocked prefix, then block empty hosts and
hosts longer than 253 bytes. -/
def isValidHost (host : List Nat) : Bool :=
  let hostLower := host.map asciiLower
  if blockedPrefixList.any (fun p => p.isPrefixOf hostLower) then false
  else if host.isEmpty || host.length > 253 then false
  else true

/-- Observable effect of one relay-session step on one inbound frame: the new
key set of `active_streams`, the frames sent on the WebSocket, the outbound
dials attempted (`Socket::builder().connect`), and the writes attempted on
stored origin write-halves. -/
structure SessionEffect where
  streams : List Nat
  sent : List TunnelMessage
  dials : List (List Nat × Nat)
  writes : List (Nat × List Nat)
deriving DecidableEq, Repr

/-- `TunnelSession::handle_connect`: duplicate stream ids are answered with
ERROR 409 before any dial; otherwise the dial is attempted and, on success
(`dialOk`), the write half is inserted; on failure ERROR 502 carries the
formatted cause (`dialErr` stands for the formatted `{:?}` error text). -/
def handleConnect (streams : List Nat) (dialOk : Bool) (sid : Nat)
    (host : List Nat) (port : Nat) (dialErr : List Nat) : SessionEffect :=
  if sid ∈ streams then
    ⟨streams, [.errorReply sid 409 (strBytes "Stream ID already in use")], [], []⟩
  else if dialOk then
    ⟨streams ++ [sid], [], [(host, port)], []⟩
  else
    ⟨streams, [.errorReply sid 502 (strBytes "Connection failed: " ++ dialErr)],
     [(host, port)], []⟩

/-- `TunnelSession::handle_data`: unknown streams are answered with ERROR 404
and not inserted; for known streams the payload is written to the origin
write half, and a failed write (`writeOk = false`) removes the entry and
sends ERROR 500 (`writeErr` stands for the formatted `{:?}` error text). -/
def handleData (streams : List Nat) (writeOk : Bool) (sid : Nat)
    (payload : List Nat) (writeErr : List Nat) : SessionEffect :=
  if sid ∈ streams then
    if writeOk then ⟨streams, [], [], [(sid, payload)]⟩
    else ⟨streams.erase sid,
          [.errorReply sid 500 (strBytes "Write error: " ++ writeErr)], [],
          [(sid, payload)]⟩
  else
    ⟨streams, [.errorReply sid 404 (strBytes "Stream not found")], [], []⟩

/-- `TunnelSession::handle_close`: remove the entry (dropping the write half
closes the socket); closing an unknown stream is a no-op. -/
def handleClose (streams : List Nat) (sid : Nat) : SessionEffect :=
  ⟨streams.erase sid, [], [], []⟩

/-- The post-decode dispatch of `TunnelSession::handle_binary_message` on the
six frame kinds of `message.rs`: SSRF-filter CONNECT hosts (ERROR 400 on
denial), forward to the handlers, answer PING inline with PONG, and ignore
PONG and ErrorReply. -/
def handleMessage (streams : List Nat) (dialOk writeOk : Bool)
    (dialErr writeErr : List Nat) : TunnelMessage → SessionEffect
  | .connect sid host port =>
      if !isValidHost host then
        ⟨streams, [.errorReply sid 400 (strBytes "Invalid host")], [], []⟩
      else handleConnect streams dialOk sid host port dialErr
  | .data sid payload => handleData streams writeOk sid payload writeErr
  | .close sid => handleClose streams sid
  | .ping => ⟨streams, [.pong], [], []⟩
  | .pong => ⟨streams, [], [], []⟩
  | .errorReply _ _ _ => ⟨streams, [], [], []⟩

/-- `TunnelSession::handle_binary_message`: decode the frame and dispatch;
frames that fail to decode are dropped without any effect. -/
def handleBinaryMessage (streams : List Nat) (dialOk writeOk : Bool)
    (dialErr writeErr : List Nat) (bytes : List Nat) : SessionEffect :=
  match TunnelMessage.decode bytes with
  | .ok m => handleMessage streams dialOk writeOk dialErr writeErr m
  | .error _ => ⟨streams, [], [], []⟩

/-- Observable effect of one step of the client reader task in `tunnel.rs`:
the new key set of the `streams` map, the payloads forwarded into per-stream
inboxes, and the frames the reader sends upstream (it sends none: the task
holds no write half or sender handle). -/
structure ClientEffect where
  streams : List Nat
  forwards : List (Nat × List Nat)
  sent : List TunnelMessage
deriving DecidableEq, Repr

/-- The reader-task dispatch of `TunnelClient::connect_ws`: DATA is forwarded
to the owning stream's inbox (dropped with a warning when unknown), CLOSE and
ErrorReply remove the entry, PONG is logged, and every other frame — PING
included — falls to the `_ => ()` arm and is ignored. -/
def clientReaderStep (streams : List Nat) : TunnelMessage → ClientEffect
  | .data sid payload =>
      if sid ∈ streams then ⟨streams, [(sid, payload)], []⟩
      else ⟨streams, [], []⟩
  | .close sid => ⟨streams.erase sid, [], []⟩
  | .errorReply sid _ _ => ⟨streams.erase sid, [], []⟩
  | .pong => ⟨streams, [], []⟩
  | _ => ⟨streams, [], []⟩

/-- Allocator and stream-table state of `TunnelClient`: the `next_stream_id`
atomic and the key set of the `streams` map. -/
structure TunnelClient where
  nextStreamId : Nat
  streams : List Nat
deriving DecidableEq, Repr

/-- The state `TunnelClient::connect_ws` returns: `AtomicU32::new(1)` and an
empty stream map. -/
def TunnelClient.connectWs : TunnelClient := ⟨1, []⟩

/-- `TunnelClient::open_stream`: `fetch_add(1, SeqCst)` hands out the current
id and wraps modulo 2^32; the CONNECT send may fail (`sendOk = false`), in
which case `?` returns before the map insertion, but the id is consumed
either way.  Host and port do not influence allocation. -/
def TunnelClient.openStream (c : TunnelClient) (sendOk : Bool) :
    Nat × TunnelClient :=
  let sid := c.nextStreamId
  let next := (c.nextStreamId + 1) % 4294967296
  if sendOk then (sid, ⟨next, c.streams ++ [sid]⟩)
  else (sid, ⟨next, c.streams⟩)

/-- Iterate `n` successful `open_stream` calls. -/
def TunnelClient.runOpens (c : TunnelClient) : Nat → TunnelClient
  | 0 => c
  | n + 1 => ((c.openStream true).2).runOpens n

/-- A `Vec<u8>` as the pool observes it: its length and capacity. -/
structure RVec where
  len : Nat
  cap : Nat
deriving DecidableEq, Repr

/-- `PacketBufPool` from `packet_pool.rs`: the `ArrayQueue` contents and
capacity `K`, and the configured buffer size `M`. -/
structure PacketBufPool where
  queue : List RVec
  capacity : Nat
  bufSize : Nat
deriving DecidableEq, Repr

/-- `PacketBufPool::new`: an empty `ArrayQueue` of capacity `K`. -/
def PacketBufPool.new (capacity bufSize : Nat) : PacketBufPool :=
  ⟨[], capacity, bufSize⟩

/-- `PacketBufPool::get`: pop a buffer and clear it, `reserve` up to
`buf_size` if its capacity shrank, and `set_len(buf_size)`; or allocate
`vec![0u8; buf_size]` when the queue is empty.  `reserve` is modelled by its
guarantee (capacity at least `buf_size` afterwards). -/
def PacketBufPool.get (p : PacketBufPool) : RVec × PacketBufPool :=
  match p.queue with
  | [] => (⟨p.bufSize, p.bufSize⟩, p)
  | buf :: rest =>
      (⟨p.bufSize, if buf.cap < p.bufSize then p.bufSize else buf.cap⟩,
       { p with queue := rest })

/-- `PacketBufPool::return_buf`: push the buffer back only when its capacity
is still at least `buf_size`; `ArrayQueue::push` fails (and the buffer is
dropped) when the queue already holds `capacity` buffers. -/
def PacketBufPool.returnBuf (p : PacketBufPool) (buf : RVec) : PacketBufPool :=
  if p.bufSize ≤ buf.cap then
    if p.queue.length < p.capacity then { p with queue := p.queue ++ [buf] }
    else p
  else p

/-- One pool operation: a `get` or a `return_buf` of a given vector. -/
inductive PoolOp where
  | get
  | ret (buf : RVec)
deriving DecidableEq, Repr

/-- Run a sequence of pool operations. -/
def PacketBufPool.run (p : PacketBufPool) : List PoolOp → PacketBufPool
  | [] => p
  | .get :: ops => ((p.get).2).run ops
  | .ret b :: ops => (p.returnBuf b).run ops

/-! ### Arithmetic of the big-endian field encodings -/

lemma beVal2_split (n : Nat) : beVal2 (n / 256 % 256) (n % 256) = n % 65536 := by
  simp only [beVal2]; omega

lemma beVal4_split (n : Nat) :
    beVal4 (n / 16777216 % 256) (n / 65536 % 256) (n / 256 % 256) (n % 256) =
      n % 4294967296 := by
  simp only [beVal4]; omega

lemma u16be_beVal2 (a b : Nat) (ha : a < 256) (hb : b < 256) :
    u16be (beVal2 a b) = [a, b] := by
  simp only [u16be, beVal2, List.cons.injEq, and_true]; omega

lemma u32be_beVal4 (a b c d : Nat) (ha : a < 256) (hb : b < 256)
    (hc : c < 256) (hd : d < 256) :
    u32be (beVal4 a b c d) = [a, b, c, d] := by
  simp only [u32be, beVal4, List.cons.injEq, and_true]; omega

lemma u16be_mod (n : Nat) : u16be (n % 65536) = u16be n := by
  simp only [u16be, List.cons.injEq, and_true]; omega

/-! ### Round-trip lemmas for the codec -/

lemma decode_encode_connect (sid port : Nat) (host : List Nat)
    (hs : sid < 4294967296) (hp : port < 65536) (hl : host.length < 65536)
    (hu : utf8Valid host = true) :
    TunnelMessage.decode (TunnelMessage.encode (.connect sid host port)) =
      .ok (.connect sid host port) := by
  simp only [TunnelMessage.encode, u32be, u16be, List.cons_append,
    List.nil_append, TunnelMessage.decode, beVal2_split, beVal4_split]
  rw [Nat.mod_eq_of_lt hl]
  simp [List.take_length, hu, beVal2_split, beVal4_split,
    Nat.mod_eq_of_lt hs, Nat.mod_eq_of_lt hp]

lemma decode_encode_data (sid : Nat) (payload : List Nat)
    (hs : sid < 4294967296) (hl : payload.length < 4294967296) :
    TunnelMessage.decode (TunnelMessage.encode (.data sid payload)) =
      .ok (.data sid payload) := by
  simp only [TunnelMessage.encode, u32be, List.cons_append, List.nil_append,
    TunnelMessage.decode, beVal4_split]
  rw [Nat.mod_eq_of_lt hl]
  simp [List.take_length, beVal4_split, Nat.mod_eq_of_lt hs]

lemma decode_encode_close (sid : Nat) (hs : sid < 4294967296) :
    TunnelMessage.decode (TunnelMessage.encode (.close sid)) =
      .ok (.close sid) := by
  simp [TunnelMessage.encode, u32be, TunnelMessage.decode, beVal4_split,
    Nat.mod_eq_of_lt hs]

lemma decode_encode_errorReply (sid code : Nat) (msg : List Nat)
    (hs : sid < 4294967296) (hc : code < 65536) (hl : msg.length < 65536)
    (hu : utf8Valid msg = true) :
    TunnelMessage.decode (TunnelMessage.encode (.errorReply sid code msg)) =
      .ok (.errorReply sid code msg) := by
  simp only [TunnelMessage.encode, u32be, u16be, List.cons_append,
    List.nil_append, TunnelMessage.decode, beVal2_split, beVal4_split]
  rw [Nat.mod_eq_of_lt hl]
  simp [List.take_length, hu, beVal2_split, beVal4_split,
    Nat.mod_eq_of_lt hs, Nat.mod_eq_of_lt hc]

/-- Round trip on every well-formed message. -/
lemma decode_encode_wfm (m : TunnelMessage) (h : m.wfm = true) :
    TunnelMessage.decode (TunnelMessage.encode m) = .ok m := by
  cases m with
  | connect sid host port =>
      simp only [TunnelMessage.wfm, Bool.and_eq_true, decide_eq_true_eq] at h
      exact decode_encode_connect sid port host h.1.1.1 h.1.1.2 h.1.2 h.2
  | data sid payload =>
      simp only [TunnelMessage.wfm, Bool.and_eq_true, decide_eq_true_eq] at h
      exact decode_encode_data sid payload h.1 h.2
  | close sid =>
      simp only [TunnelMessage.wfm, decide_eq_true_eq] at h
      exact decode_encode_close sid h
  | errorReply sid code msg =>
      simp only [TunnelMessage.wfm, Bool.and_eq_true, decide_eq_true_eq] at h
      exact decode_encode_errorReply sid code msg h.1.1.1 h.1.1.2 h.1.2 h.2
  | ping => rfl
  | pong => rfl

/-! ### Length-prefix truncation by the `as u16` casts -/

/-- The emitted CONNECT frame always carries the true host length modulo
2^16 in its length-prefix field, while all host bytes are appended. -/
lemma encode_connect_struct (sid port : Nat) (host : List Nat) :
    TunnelMessage.encode (.connect sid host port) =
      1 :: (u32be sid ++ u16be port ++ u16be (host.length % 65536) ++ host) := by
  simp [TunnelMessage.encode, u16be_mod]

/-- The emitted ERROR frame always carries the true message length modulo
2^16 in its length-prefix field, while all message bytes are appended. -/
lemma encode_errorReply_struct (sid code : Nat) (msg : List Nat) :
    TunnelMessage.encode (.errorReply sid code msg) =
      4 :: (u32be sid ++ u16be code ++ u16be (msg.length % 65536) ++ msg) := by
  simp [TunnelMessage.encode, u16be_mod]

/-- Length of an encoded DATA frame: header (9 bytes) plus payload. -/
lemma encode_data_length (sid : Nat) (payload : List Nat) :
    (TunnelMessage.encode (.data sid payload)).length = 9 + payload.length := by
  simp [TunnelMessage.encode, u32be]
  omega

/-- A CONNECT whose host exceeds 65535 bytes does not round-trip: decode
reads back only `host.length % 2^16` bytes of host (or fails on UTF-8). -/
lemma decode_encode_connect_overflow (sid port : Nat) (host : List Nat)
    (h : 65535 < host.length) :
    TunnelMessage.decode (TunnelMessage.encode (.connect sid host port)) ≠
      .ok (.connect sid host port) := by
  simp only [TunnelMessage.encode, u32be, u16be, List.cons_append,
    List.nil_append, TunnelMessage.decode, beVal2_split, beVal4_split]
  have h1 : ¬ host.length < host.length % 65536 := by omega
  rw [if_neg h1]
  by_cases hu : utf8Valid (host.take (host.length % 65536))
  · rw [if_pos hu]
    intro heq
    have h2 : host.take (host.length % 65536) = host := by
      have := Except.ok.inj heq
      exact (TunnelMessage.connect.inj this).2.1
    have h3 : (host.take (host.length % 65536)).length = host.length % 65536 := by
      rw [List.length_take]; omega
    rw [h2] at h3
    omega
  · rw [if_neg hu]
    intro heq
    exact Except.noConfusion heq

/-- An ERROR whose message exceeds 65535 bytes does not round-trip. -/
lemma decode_encode_errorReply_overflow (sid code : Nat) (msg : List Nat)
    (h : 65535 < msg.length) :
    TunnelMessage.decode (TunnelMessage.encode (.errorReply sid code msg)) ≠
      .ok (.errorReply sid code msg) := by
  simp only [TunnelMessage.encode, u32be, u16be, List.cons_append,
    List.nil_append, TunnelMessage.decode, beVal2_split, beVal4_split]
  norm_num
  have h1 : ¬ msg.length < msg.length % 65536 := by omega
  rw [if_neg h1]
  by_cases hu : utf8Valid (msg.take (msg.length % 65536))
  · rw [if_pos hu]
    intro heq
    have h2 : msg.take (msg.length % 65536) = msg := by
      have := Except.ok.inj heq
      exact (TunnelMessage.errorReply.inj this).2.2
    have h3 : (msg.take (msg.length % 65536)).length = msg.length % 65536 := by
      rw [List.length_take]; omega
    rw [h2] at h3
    omega
  · rw [if_neg hu]
    intro heq
    exact Except.noConfusion heq

/-- Totality of decode on arbitrary byte strings: either some message is
returned whose re-encoding is a prefix of the input, or one of the
enumerated decode errors. -/
lemma decode_spec (b : List Nat) (hb : ∀ x ∈ b, x < 256) :
    (∃ m, TunnelMessage.decode b = .ok m ∧ TunnelMessage.encode m <+: b) ∨
    (∃ er, TunnelMessage.decode b = .error er ∧ er.isDecodeError = true) := by
  rcases b with _ | ⟨cmd, rest⟩
  · exact .inr ⟨.emptyMessage, rfl, rfl⟩
  by_cases h1 : cmd = 1
  · subst h1
    rcases rest with _ | ⟨a, _ | ⟨v2, _ | ⟨v3, _ | ⟨v4, _ | ⟨p1, _ | ⟨p2, _ | ⟨l1, _ | ⟨l2, rem⟩⟩⟩⟩⟩⟩⟩⟩
    · exact .inr ⟨.insufficientData, rfl, rfl⟩
    · exact .inr ⟨.insufficientData, rfl, rfl⟩
    · exact .inr ⟨.insufficientData, rfl, rfl⟩
    · exact .inr ⟨.insufficientData, rfl, rfl⟩
    · exact .inr ⟨.insufficientData, rfl, rfl⟩
    · exact .inr ⟨.insufficientData, rfl, rfl⟩
    · exact .inr ⟨.insufficientData, rfl, rfl⟩
    · exact .inr ⟨.insufficientData, rfl, rfl⟩
    by_cases hlen : rem.length < beVal2 l1 l2
    · refine .inr ⟨.insufficientData, ?_, rfl⟩
      simp [TunnelMessage.decode, hlen]
    · by_cases hu : utf8Valid (rem.take (beVal2 l1 l2))
      · refine .inl ⟨.connect (beVal4 a v2 v3 v4) (rem.take (beVal2 l1 l2)) (beVal2 p1 p2), ?_, ?_⟩
        · simp [TunnelMessage.decode, hlen, hu]
        · have hlen' : (rem.take (beVal2 l1 l2)).length = beVal2 l1 l2 := by
            rw [List.length_take]; omega
          simp only [TunnelMessage.encode, hlen']
          rw [u32be_beVal4 a v2 v3 v4 (hb a (by simp)) (hb v2 (by simp)) (hb v3 (by simp)) (hb v4 (by simp)),
            u16be_beVal2 p1 p2 (hb p1 (by simp)) (hb p2 (by simp)),
            u16be_beVal2 l1 l2 (hb l1 (by simp)) (hb l2 (by simp))]
          refine ⟨rem.drop (beVal2 l1 l2), ?_⟩
          simp [List.cons_append, List.nil_append, List.append_assoc]
      · refine .inr ⟨.invalidUtf8, ?_, rfl⟩
        simp [TunnelMessage.decode, hlen, hu]
  by_cases h2 : cmd = 2
  · subst h2
    rcases rest with _ | ⟨a, _ | ⟨v2, _ | ⟨v3, _ | ⟨v4, _ | ⟨e1, _ | ⟨e2, _ | ⟨e3, _ | ⟨e4, rem⟩⟩⟩⟩⟩⟩⟩⟩
    · exact .inr ⟨.insufficientData, rfl, rfl⟩
    · exact .inr ⟨.insufficientData, rfl, rfl⟩
    · exact .inr ⟨.insufficientData, rfl, rfl⟩
    · exact .inr ⟨.insufficientData, rfl, rfl⟩
    · exact .inr ⟨.insufficientData, rfl, rfl⟩
    · exact .inr ⟨.insufficientData, rfl, rfl⟩
    · exact .inr ⟨.insufficientData, rfl, rfl⟩
    · exact .inr ⟨.insufficientData, rfl, rfl⟩
    by_cases hlen : rem.length < beVal4 e1 e2 e3 e4
    · refine .inr ⟨.insufficientData, ?_, rfl⟩
      simp [TunnelMessage.decode, hlen]
    · refine .inl ⟨.data (beVal4 a v2 v3 v4) (rem.take (beVal4 e1 e2 e3 e4)), ?_, ?_⟩
      · simp [TunnelMessage.decode, hlen]
      · have hlen' : (rem.take (beVal4 e1 e2 e3 e4)).length = beVal4 e1 e2 e3 e4 := by
          rw [List.length_take]; omega
        simp only [TunnelMessage.encode, hlen']
        rw [u32be_beVal4 a v2 v3 v4 (hb a (by simp)) (hb v2 (by simp)) (hb v3 (by simp)) (hb v4 (by simp)),
          u32be_beVal4 e1 e2 e3 e4 (hb e1 (by simp)) (hb e2 (by simp)) (hb e3 (by simp)) (hb e4 (by simp))]
        refine ⟨rem.drop (beVal4 e1 e2 e3 e4), ?_⟩
        simp [List.cons_append, List.nil_append, List.append_assoc]
  by_cases h3 : cmd = 3
  · subst h3
    rcases rest with _ | ⟨a, _ | ⟨v2, _ | ⟨v3, _ | ⟨v4, rest⟩⟩⟩⟩
    · exact .inr ⟨.insufficientData, rfl, rfl⟩
    · exact .inr ⟨.insufficientData, rfl, rfl⟩
    · exact .inr ⟨.insufficientData, rfl, rfl⟩
    · exact .inr ⟨.insufficientData, rfl, rfl⟩
    refine .inl ⟨.close (beVal4 a v2 v3 v4), rfl, ?_⟩
    simp only [TunnelMessage.encode]
    rw [u32be_beVal4 a v2 v3 v4 (hb a (by simp)) (hb v2 (by simp)) (hb v3 (by simp)) (hb v4 (by simp))]
    exact ⟨rest, rfl⟩
  by_cases h4 : cmd = 4
  · subst h4
    rcases rest with _ | ⟨a, _ | ⟨v2, _ | ⟨v3, _ | ⟨v4, _ | ⟨c1, _ | ⟨c2, _ | ⟨l1, _ | ⟨l2, rem⟩⟩⟩⟩⟩⟩⟩⟩
    · exact .inr ⟨.insufficientData, rfl, rfl⟩
    · exact .inr ⟨.insufficientData, rfl, rfl⟩
    · exact .inr ⟨.insufficientData, rfl, rfl⟩
    · exact .inr ⟨.insufficientData, rfl, rfl⟩
    · exact .inr ⟨.insufficientData, rfl, rfl⟩
    · exact .inr ⟨.insufficientData, rfl, rfl⟩
    · exact .inr ⟨.insufficientData, rfl, rfl⟩
    · exact .inr ⟨.insufficientData, rfl, rfl⟩
    by_cases hlen : rem.length < beVal2 l1 l2
    · refine .inr ⟨.insufficientData, ?_, rfl⟩
      simp [TunnelMessage.decode, hlen]
    · by_cases hu : utf8Valid (rem.take (beVal2 l1 l2))
      · refine .inl ⟨.errorReply (beVal4 a v2 v3 v4) (beVal2 c1 c2) (rem.take (beVal2 l1 l2)), ?_, ?_⟩
        · simp [TunnelMessage.decode, hlen, hu]
        · have hlen' : (rem.take (beVal2 l1 l2)).length = beVal2 l1 l2 := by
            rw [List.length_take]; omega
          simp only [TunnelMessage.encode, hlen']
          rw [u32be_beVal4 a v2 v3 v4 (hb a (by simp)) (hb v2 (by simp)) (hb v3 (by simp)) (hb v4 (by simp)),
            u16be_beVal2 c1 c2 (hb c1 (by simp)) (hb c2 (by simp)),
            u16be_beVal2 l1 l2 (hb l1 (by simp)) (hb l2 (by simp))]
          refine ⟨rem.drop (beVal2 l1 l2), ?_⟩
          simp [List.cons_append, List.nil_append, List.append_assoc]
      · refine .inr ⟨.invalidUtf8, ?_, rfl⟩
        simp [TunnelMessage.decode, hlen, hu]
  by_cases h5 : cmd = 5
  · subst h5
    exact .inl ⟨.ping, rfl, ⟨rest, rfl⟩⟩
  by_cases h6 : cmd = 6
  · subst h6
    exact .inl ⟨.pong, rfl, ⟨rest, rfl⟩⟩
  refine .inr ⟨.invalidCommand cmd, ?_, rfl⟩
  simp [TunnelMessage.decode, h1, h2, h3, h4, h5, h6]

/-! ### UTF-8 and SSRF-filter facts -/

/-- Pure ASCII byte strings pass UTF-8 validation. -/
lemma utf8Valid_of_ascii (l : List Nat) (h : ∀ x ∈ l, x < 128) :
    utf8Valid l = true := by
  unfold utf8Valid
  induction l with
  | nil => rfl
  | cons b rest ih =>
      have hb : b < 128 := h b (by simp)
      simp only [utf8Scan]
      rw [if_neg (by omega), if_pos hb]
      exact ih fun x hx => h x (by simp [hx])

/-- The host filter returns `false` exactly when the lowercased host starts
with a blocked prefix, is empty, or is longer than 253 bytes. -/
lemma isValidHost_false_iff (host : List Nat) :
    isValidHost host = false ↔
      ((∃ p ∈ blockedPrefixList, p <+: host.map asciiLower) ∨
        host = [] ∨ 253 < host.length) := by
  unfold isValidHost
  by_cases h1 : blockedPrefixList.any fun p => p.isPrefixOf (host.map asciiLower)
  · rw [List.any_eq_true] at h1
    obtain ⟨p, hp, hpre⟩ := h1
    simp only [List.any_eq_true]
    rw [if_pos ⟨p, hp, hpre⟩]
    simp only [true_iff]
    exact .inl ⟨p, hp, List.isPrefixOf_iff_prefix.mp hpre⟩
  · simp only [List.any_eq_true] at h1
    simp only [List.any_eq_true]
    rw [if_neg h1]
    by_cases h2 : host.isEmpty || decide (host.length > 253)
    · rw [if_pos h2]
      simp only [Bool.or_eq_true, List.isEmpty_iff, decide_eq_true_eq] at h2
      simp only [true_iff]
      exact .inr h2
    · rw [if_neg h2]
      simp only [Bool.or_eq_true, List.isEmpty_iff, decide_eq_true_eq,
        not_or] at h2
      constructor
      · intro hfalse
        exact absurd hfalse (by decide)
      · rintro (⟨p, hp, hpre⟩ | h | h)
        · exact absurd ⟨p, hp, List.isPrefixOf_iff_prefix.mpr hpre⟩ h1
        · exact absurd h h2.1
        · exact absurd h h2.2

/-! ### Client stream-id allocator facts -/

lemma openStream_fst (c : TunnelClient) (sendOk : Bool) :
    (c.openStream sendOk).1 = c.nextStreamId := by
  cases sendOk <;> rfl

lemma openStream_next (c : TunnelClient) (sendOk : Bool) :
    (c.openStream sendOk).2.nextStreamId = (c.nextStreamId + 1) % 4294967296 := by
  cases sendOk <;> rfl

lemma runOpens_succ (n : Nat) (c : TunnelClient) :
    c.runOpens (n + 1) =
      TunnelClient.runOpens
        ⟨(c.nextStreamId + 1) % 4294967296, c.streams ++ [c.nextStreamId]⟩ n := by
  simp [TunnelClient.runOpens, TunnelClient.openStream]

lemma runOpens_next (k : Nat) (c : TunnelClient)
    (hc : c.nextStreamId < 4294967296) :
    (c.runOpens k).nextStreamId = (c.nextStreamId + k) % 4294967296 := by
  induction k generalizing c with
  | zero =>
      simp only [TunnelClient.runOpens]
      omega
  | succ n ih =>
      rw [runOpens_succ,
        ih ⟨(c.nextStreamId + 1) % 4294967296, c.streams ++ [c.nextStreamId]⟩
          (Nat.mod_lt _ (by omega))]
      dsimp only
      omega

lemma runOpens_streams_mono (k : Nat) (c : TunnelClient) (s : Nat)
    (h : s ∈ c.streams) : s ∈ (c.runOpens k).streams := by
  induction k generalizing c with
  | zero => exact h
  | succ n ih =>
      rw [runOpens_succ]
      exact ih _ (List.mem_append_left _ h)

lemma runOpens_add (a b : Nat) (c : TunnelClient) :
    c.runOpens (a + b) = (c.runOpens a).runOpens b := by
  induction a generalizing c with
  | zero =>
      rw [Nat.zero_add]
      rfl
  | succ n ih =>
      have hadd : n + 1 + b = (n + b) + 1 := by omega
      rw [hadd, runOpens_succ, runOpens_succ]
      exact ih _

/-! ### Packet-pool facts -/

lemma pool_get_len (p : PacketBufPool) : ((p.get).1).len = p.bufSize := by
  rcases p with ⟨_ | ⟨b, rest⟩, K, M⟩ <;> rfl

lemma pool_returnBuf_queue (p : PacketBufPool) (b : RVec) :
    (p.returnBuf b).queue =
      if p.bufSize ≤ b.cap ∧ p.queue.length < p.capacity
      then p.queue ++ [b] else p.queue := by
  unfold PacketBufPool.returnBuf
  by_cases h1 : p.bufSize ≤ b.cap
  · by_cases h2 : p.queue.length < p.capacity
    · rw [if_pos h1, if_pos h2, if_pos ⟨h1, h2⟩]
    · rw [if_pos h1, if_neg h2, if_neg fun hc => h2 hc.2]
  · rw [if_neg h1, if_neg fun hc => h1 hc.1]

lemma pool_get_capacity (p : PacketBufPool) : ((p.get).2).capacity = p.capacity := by
  rcases p with ⟨_ | ⟨b, rest⟩, K, M⟩ <;> rfl

lemma pool_get_queue_len (p : PacketBufPool) :
    ((p.get).2).queue.length ≤ p.queue.length := by
  rcases p with ⟨_ | ⟨b, rest⟩, K, M⟩ <;> simp [PacketBufPool.get]

lemma pool_returnBuf_capacity (p : PacketBufPool) (b : RVec) :
    (p.returnBuf b).capacity = p.capacity := by
  unfold PacketBufPool.returnBuf
  split_ifs <;> rfl

lemma pool_run_bounded (ops : List PoolOp) (p : PacketBufPool)
    (h : p.queue.length ≤ p.capacity) :
    (p.run ops).queue.length ≤ p.capacity := by
  induction ops generalizing p with
  | nil => exact h
  | cons op rest ih =>
      cases op with
      | get =>
          simp only [PacketBufPool.run]
          have h1 := pool_get_queue_len p
          have h2 := pool_get_capacity p
          rw [← h2]
          exact ih _ (by rw [h2]; omega)
      | ret b =>
          simp only [PacketBufPool.run]
          have h1 := pool_returnBuf_queue p b
          have h2 := pool_returnBuf_capacity p b
          rw [← h2]
          refine ih _ ?_
          rw [h1, h2]
          split_ifs with hc
          · simp only [List.length_append, List.length_cons, List.length_nil]
            omega
          · exact h

/-! ### Claim theorems -/

/-- C1 (counterexample): the round-trip identity fails as universally stated:
a CONNECT message whose host is 65536 bytes of `a` does not decode back to
itself, because `encode` truncates the host length to `u16`. -/
theorem C1_roundtrip_cex :
    TunnelMessage.decode
        (TunnelMessage.encode (.connect 1 (List.replicate 65536 97) 80)) ≠
      .ok (.connect 1 (List.replicate 65536 97) 80) := by
  refine decode_encode_connect_overflow 1 80 (List.replicate 65536 97) ?_
  rw [List.length_replicate]
  norm_num

/-- C1 (amended): decoding the encoding gives back the same message, with
equal fields, for every message the Rust types can represent whose host,
message and payload lengths fit their length-prefix fields (host and message
at most 65535 bytes, payload below 2^32 bytes). -/
theorem C1_roundtrip_wf (m : TunnelMessage) (h : m.wfm = true) :
    TunnelMessage.decode (TunnelMessage.encode m) = .ok m :=
  decode_encode_wfm m h

/-- C1 (witness): the amended round trip at a concrete CONNECT message. -/
theorem C1_roundtrip_wf_witness :
    (TunnelMessage.connect 42 (strBytes "google.com") 443).wfm = true ∧
      TunnelMessage.decode
          (TunnelMessage.encode (.connect 42 (strBytes "google.com") 443)) =
        .ok (.connect 42 (strBytes "google.com") 443) :=
  ⟨by decide, C1_roundtrip_wf _ (by decide)⟩

/-- C2: decode is total on arbitrary byte strings: it either returns a
message whose re-encoding is a prefix of the input, or returns one of the
enumerated decode errors (never the `io` variant); every length-prefixed
read is behind a remaining-length guard, which is what the prefix property
rests on. -/
theorem C2_decode_total (b : List Nat) (hb : ∀ x ∈ b, x < 256) :
    (∃ m, TunnelMessage.decode b = .ok m ∧ TunnelMessage.encode m <+: b) ∨
      (∃ er, TunnelMessage.decode b = .error er ∧ er.isDecodeError = true) :=
  decode_spec b hb

/-- C2 (witness): decode totality at a concrete CLOSE frame that carries a
trailing byte, so the re-encoding is a strict prefix of the input. -/
theorem C2_decode_total_witness :
    (∀ x ∈ [3, 0, 0, 0, 7, 9], x < 256) ∧
      ((∃ m, TunnelMessage.decode [3, 0, 0, 0, 7, 9] = .ok m ∧
          TunnelMessage.encode m <+: [3, 0, 0, 0, 7, 9]) ∨
        (∃ er, TunnelMessage.decode [3, 0, 0, 0, 7, 9] = .error er ∧
          er.isDecodeError = true)) :=
  ⟨by decide, C2_decode_total [3, 0, 0, 0, 7, 9] (by decide)⟩

/-- C3: contrary to the spec, `decode` enforces no frame-size bound: a DATA
frame of 1 MiB + 9 bytes — larger than `MAX_FRAME_SIZE` — decodes
successfully instead of returning `FrameTooLarge`; the constant and the
error variant exist in the code but no code path produces the error. -/
theorem C3_no_frameTooLarge :
    MAX_FRAME_SIZE <
        (TunnelMessage.encode (.data 1 (List.replicate 1048576 0))).length ∧
      TunnelMessage.decode
          (TunnelMessage.encode (.data 1 (List.replicate 1048576 0))) =
        .ok (.data 1 (List.replicate 1048576 0)) := by
  constructor
  · rw [encode_data_length, List.length_replicate]
    norm_num [MAX_FRAME_SIZE]
  · refine decode_encode_data 1 (List.replicate 1048576 0) (by norm_num) ?_
    rw [List.length_replicate]
    norm_num

/-- C4: the SSRF filter returns `false` exactly when the lowercased host
starts with one of the blocked prefixes, is empty, or is longer than 253
bytes; and a CONNECT whose host is denied is answered with ERROR 400
"Invalid host" while the stream map, dial list and write list stay
unchanged. -/
theorem C4_ssrf_filter :
    (∀ host : List Nat,
        isValidHost host = false ↔
          ((∃ p ∈ blockedPrefixList, p <+: host.map asciiLower) ∨
            host = [] ∨ 253 < host.length)) ∧
      (∀ (streams : List Nat) (dialOk writeOk : Bool)
          (dialErr writeErr : List Nat) (sid : Nat) (host : List Nat)
          (port : Nat), isValidHost host = false →
          handleMessage streams dialOk writeOk dialErr writeErr
              (.connect sid host port) =
            ⟨streams, [.errorReply sid 400 (strBytes "Invalid host")], [], []⟩) := by
  refine ⟨isValidHost_false_iff, ?_⟩
  intro streams dialOk writeOk dialErr writeErr sid host port h
  simp [handleMessage, h]

/-- C4 (witness): the filter denies `127.0.0.1` and the session answers the
CONNECT with ERROR 400 "Invalid host", leaving the empty stream map
unchanged. -/
theorem C4_ssrf_filter_witness :
    isValidHost (strBytes "127.0.0.1") = false ∧
      handleMessage [] true true [] []
          (.connect 7 (strBytes "127.0.0.1") 80) =
        ⟨[], [.errorReply 7 400 (strBytes "Invalid host")], [], []⟩ :=
  ⟨by decide, C4_ssrf_filter.2 [] true true [] [] 7 _ 80 (by decide)⟩

/-- C5: a CONNECT for a stream id already present in the map is answered
with ERROR 409, no dial is attempted, and the map is unchanged, so the
existing stream stays usable. -/
theorem C5_duplicate_connect (streams : List Nat) (dialOk : Bool) (sid : Nat)
    (host : List Nat) (port : Nat) (dialErr : List Nat) (h : sid ∈ streams) :
    handleConnect streams dialOk sid host port dialErr =
      ⟨streams, [.errorReply sid 409 (strBytes "Stream ID already in use")],
       [], []⟩ := by
  simp [handleConnect, h]

/-- C5 (witness): the duplicate-CONNECT reply at a concrete state holding
stream 7. -/
theorem C5_duplicate_connect_witness :
    7 ∈ [7] ∧
      handleConnect [7] true 7 (strBytes "example.com") 80 [] =
        ⟨[7], [.errorReply 7 409 (strBytes "Stream ID already in use")],
         [], []⟩ :=
  ⟨by decide, C5_duplicate_connect [7] true 7 (strBytes "example.com") 80 []
    (by decide)⟩

/-- C6: a DATA frame for an unknown stream is answered with ERROR 404
"Stream not found" and the id is not inserted; for a known stream the
payload is written to the stored origin write half, and a failed write
removes the entry and sends ERROR 500. -/
theorem C6_data_dispatch :
    (∀ (streams : List Nat) (writeOk : Bool) (sid : Nat)
        (payload writeErr : List Nat), sid ∉ streams →
        handleData streams writeOk sid payload writeErr =
          ⟨streams, [.errorReply sid 404 (strBytes "Stream not found")],
           [], []⟩) ∧
      (∀ (streams : List Nat) (sid : Nat) (payload writeErr : List Nat),
        sid ∈ streams →
        handleData streams true sid payload writeErr =
          ⟨streams, [], [], [(sid, payload)]⟩) ∧
      (∀ (streams : List Nat) (sid : Nat) (payload writeErr : List Nat),
        sid ∈ streams →
        handleData streams false sid payload writeErr =
          ⟨streams.erase sid,
           [.errorReply sid 500 (strBytes "Write error: " ++ writeErr)], [],
           [(sid, payload)]⟩) := by
  refine ⟨?_, ?_, ?_⟩ <;> intro streams
  · intro writeOk sid payload writeErr h
    simp [handleData, h]
  · intro sid payload writeErr h
    simp [handleData, h]
  · intro sid payload writeErr h
    simp [handleData, h]

/-- C6 (witness): the three DATA dispatch cases at concrete states. -/
theorem C6_data_dispatch_witness :
    (3 ∉ ([] : List Nat) ∧
      handleData [] true 3 [104, 105] [] =
        ⟨[], [.errorReply 3 404 (strBytes "Stream not found")], [], []⟩) ∧
      (3 ∈ [3] ∧
        handleData [3] true 3 [104, 105] [] =
          ⟨[3], [], [], [(3, [104, 105])]⟩) ∧
      (3 ∈ [3] ∧
        handleData [3] false 3 [104, 105] [] =
          ⟨[], [.errorReply 3 500 (strBytes "Write error: ")], [],
           [(3, [104, 105])]⟩) :=
  ⟨⟨by decide, C6_data_dispatch.1 [] true 3 [104, 105] [] (by decide)⟩,
   ⟨by decide, C6_data_dispatch.2.1 [3] 3 [104, 105] [] (by decide)⟩,
   ⟨by decide, by
      have h := C6_data_dispatch.2.2 [3] 3 [104, 105] [] (by decide)
      simpa using h⟩⟩

/-- C7 (counterexample): the client endpoint does not answer a received
PING: the reader task's wildcard arm ignores it and sends nothing, so no
PONG is emitted — the claim that both endpoints answer PING fails. -/
theorem C7_client_ping_cex :
    (clientReaderStep [] TunnelMessage.ping).sent = [] ∧
      TunnelMessage.pong ∉ (clientReaderStep [] TunnelMessage.ping).sent := by
  refine ⟨rfl, ?_⟩
  intro h
  simp [clientReaderStep] at h

/-- C7 (amended): on the relay endpoint every received PING is answered
inline with a PONG and PONG is ignored; on the client endpoint both PING
and PONG are ignored without a reply; on both endpoints PING and PONG never
enter the stream table and leave its contents unchanged. -/
theorem C7_ping_pong :
    (∀ (streams : List Nat) (dialOk writeOk : Bool)
        (dialErr writeErr : List Nat),
        handleMessage streams dialOk writeOk dialErr writeErr .ping =
          ⟨streams, [.pong], [], []⟩) ∧
      (∀ (streams : List Nat) (dialOk writeOk : Bool)
          (dialErr writeErr : List Nat),
          handleMessage streams dialOk writeOk dialErr writeErr .pong =
            ⟨streams, [], [], []⟩) ∧
      (∀ streams : List Nat,
          clientReaderStep streams .ping = ⟨streams, [], []⟩) ∧
      (∀ streams : List Nat,
          clientReaderStep streams .pong = ⟨streams, [], []⟩) :=
  ⟨fun _ _ _ _ _ => rfl, fun _ _ _ _ _ => rfl, fun _ => rfl, fun _ => rfl⟩

/-- C8 (counterexample): `return_buf` does not push back every buffer of
sufficient capacity: with the queue already full (capacity 1, one buffer
held), a buffer of capacity 8 ≥ M = 4 is dropped, not pushed. -/
theorem C8_returnBuf_full_cex :
    4 ≤ (⟨0, 8⟩ : RVec).cap ∧
      ((⟨[⟨0, 4⟩], 1, 4⟩ : PacketBufPool).returnBuf ⟨0, 8⟩).queue =
        [⟨0, 4⟩] ∧
      (⟨0, 8⟩ : RVec) ∉
        ((⟨[⟨0, 4⟩], 1, 4⟩ : PacketBufPool).returnBuf ⟨0, 8⟩).queue := by
  refine ⟨by decide, by decide, by decide⟩

/-- C8 (amended): `get` always returns a vector of length exactly M;
`return_buf` pushes the buffer back exactly when its capacity is at least M
and the queue is not full, and drops it otherwise; and from a freshly
constructed pool, no sequence of `get`/`return_buf` operations ever makes
the queue hold more than K buffers. -/
theorem C8_pool_spec :
    (∀ p : PacketBufPool, ((p.get).1).len = p.bufSize) ∧
      (∀ (p : PacketBufPool) (b : RVec),
        (p.returnBuf b).queue =
          if p.bufSize ≤ b.cap ∧ p.queue.length < p.capacity
          then p.queue ++ [b] else p.queue) ∧
      (∀ (K M : Nat) (ops : List PoolOp),
        ((PacketBufPool.new K M).run ops).queue.length ≤ K) :=
  ⟨pool_get_len, pool_returnBuf_queue,
   fun K M ops => pool_run_bounded ops _ (by simp [PacketBufPool.new])⟩

/-- C9 (counterexample): after 2^32 + 4 allocations from a fresh client the
allocator hands out id 5 although stream 5 is present in the stream table —
it does not skip ids currently in use on wrap. -/
theorem C9_wrap_no_skip_cex :
    ((TunnelClient.connectWs.runOpens 4294967300).openStream true).1 = 5 ∧
      5 ∈ (TunnelClient.connectWs.runOpens 4294967300).streams := by
  constructor
  · rw [openStream_fst, runOpens_next _ _ (by decide)]
    decide
  · have hsum : (4294967300 : Nat) = 5 + 4294967295 := by norm_num
    rw [hsum, runOpens_add]
    exact runOpens_streams_mono _ _ _ (by decide)

/-- C9 (amended): stream ids are client-allocated starting at 1 and the n-th
`open_stream` call (successful or failed) observes id n, for every n below
2^32; the allocator wraps to 0 after 2^32 − 1 allocations, and on wrap it
does not skip ids currently present in the stream table. -/
theorem C9_alloc_monotonic :
    (∀ (n : Nat) (sendOk : Bool), 0 < n → n < 4294967296 →
        ((TunnelClient.connectWs.runOpens (n - 1)).openStream sendOk).1 = n) ∧
      ((TunnelClient.connectWs.runOpens 4294967295).openStream true).1 = 0 ∧
      (((TunnelClient.connectWs.runOpens 4294967300).openStream true).1 = 5 ∧
        5 ∈ (TunnelClient.connectWs.runOpens 4294967300).streams) := by
  refine ⟨?_, ?_, ?_, ?_⟩
  · intro n sendOk h0 hlt
    rw [openStream_fst, runOpens_next _ _ (by decide)]
    show (1 + (n - 1)) % 4294967296 = n
    omega
  · rw [openStream_fst, runOpens_next _ _ (by decide)]
    decide
  · rw [openStream_fst, runOpens_next _ _ (by decide)]
    decide
  · have hsum : (4294967300 : Nat) = 5 + 4294967295 := by norm_num
    rw [hsum, runOpens_add]
    exact runOpens_streams_mono _ _ _ (by decide)

/-- C9 (witness): the third `open_stream` call observes id 3. -/
theorem C9_alloc_monotonic_witness :
    0 < 3 ∧ 3 < 4294967296 ∧
      ((TunnelClient.connectWs.runOpens 2).openStream true).1 = 3 :=
  ⟨by decide, by norm_num,
   C9_alloc_monotonic.1 3 true (by decide) (by norm_num)⟩

/-- C10: `encode` truncates host and message lengths to `u16`: for every
CONNECT whose host exceeds 65535 bytes (and every ERROR whose message
exceeds 65535 bytes) the emitted length-prefix field equals the true length
modulo 2^16 while all string bytes are still appended, so the frame's
prefix disagrees with its body and `decode (encode f)` does not return
`f`. -/
theorem C10_length_cast_truncation :
    (∀ (sid port : Nat) (host : List Nat), 65535 < host.length →
        TunnelMessage.encode (.connect sid host port) =
            1 :: (u32be sid ++ u16be port ++ u16be (host.length % 65536) ++
              host) ∧
          TunnelMessage.decode (TunnelMessage.encode (.connect sid host port)) ≠
            .ok (.connect sid host port)) ∧
      (∀ (sid code : Nat) (msg : List Nat), 65535 < msg.length →
        TunnelMessage.encode (.errorReply sid code msg) =
            4 :: (u32be sid ++ u16be code ++ u16be (msg.length % 65536) ++
              msg) ∧
          TunnelMessage.decode
              (TunnelMessage.encode (.errorReply sid code msg)) ≠
            .ok (.errorReply sid code msg)) := by
  constructor
  · intro sid port host h
    exact ⟨encode_connect_struct sid port host,
      decode_encode_connect_overflow sid port host h⟩
  · intro sid code msg h
    exact ⟨encode_errorReply_struct sid code msg,
      decode_encode_errorReply_overflow sid code msg h⟩

/-- C10 (witness): the truncation consequence at concrete 65536-byte
strings. -/
theorem C10_length_cast_truncation_witness :
    (65535 < (List.replicate 65536 97).length ∧
      TunnelMessage.decode
          (TunnelMessage.encode (.connect 2 (List.replicate 65536 97) 443)) ≠
        .ok (.connect 2 (List.replicate 65536 97) 443)) ∧
      (65535 < (List.replicate 65536 97).length ∧
        TunnelMessage.decode
            (TunnelMessage.encode
              (.errorReply 2 404 (List.replicate 65536 97))) ≠
          .ok (.errorReply 2 404 (List.replicate 65536 97))) :=
  ⟨⟨by rw [List.length_replicate]; norm_num,
    (C10_length_cast_truncation.1 2 443 (List.replicate 65536 97)
      (by rw [List.length_replicate]; norm_num)).2⟩,
   ⟨by rw [List.length_replicate]; norm_num,
    (C10_length_cast_truncation.2 2 404 (List.replicate 65536 97)
      (by rw [List.length_replicate]; norm_num)).2⟩⟩

end ZKS
